import Mathlib

/-!
Verification of the Career Compass application (`app.py`).

The development shallowly embeds the session-state flow of the Streamlit
application: Python dicts become association lists (`List (String × _)`)
preserving insertion order, Python dict assignment becomes `dict_set`,
`st.session_state` becomes the `SessionDict` structure whose `Option` fields
record key presence, and each page routine becomes a pure function from the
session slots it reads to the slots it writes plus a description of what it
renders.  External model calls are passed in as an `Except` value: `.ok`
carries the parsed `career_path` list of a structurally valid reply, `.error`
carries the message of a failed call or unparseable reply.
-/

namespace CareerCompass

/-- Embedding of `d.get(k, default)` on a Python dict held as an association list. -/
def dictGetD {α : Type} (d : List (String × α)) (k : String) (default : α) : α :=
  (d.lookup k).getD default

/-- Python dict assignment `d[k] = v`: overwrite in place if the key exists
(keeping its position in insertion order), otherwise append at the end. -/
def dict_set (d : List (String × String)) (k v : String) : List (String × String) :=
  if d.any (fun p => p.1 == k) then
    d.map (fun p => if p.1 == k then (p.1, v) else p)
  else d ++ [(k, v)]

/-! ## Profile setup (`profile_questions`, `display_profile_setup`) -/

/-- The fixed ordered profile question sequence of `app.py`. -/
def profile_questions : List (String × String) :=
  [("Full Name", "What is your full name?"),
   ("Age", "What is your age?"),
   ("Education", "What is your current education level and field of study?"),
   ("Technical Background", "What is your current technical background or experience?")]

/-- One form submission on the Profile Setup page.  The form only exists while
`chat_stage < len(profile_questions)`; a submission with non-empty input stores
the answer under the current question key and advances `chat_stage` by one,
and an empty submission leaves the state unchanged (the `if submit_button and
user_input:` guard). -/
def display_profile_setup_submit (chat_stage : Nat)
    (user_data : List (String × String)) (user_input : String) :
    Nat × List (String × String) :=
  if chat_stage < profile_questions.length then
    if user_input ≠ "" then
      (chat_stage + 1,
       dict_set user_data (profile_questions.getD chat_stage ("", "")).1 user_input)
    else (chat_stage, user_data)
  else (chat_stage, user_data)

/-- The profile-setup states reachable from a fresh session by any sequence of
form submissions. -/
inductive ProfileReachable : Nat × List (String × String) → Prop where
  | init : ProfileReachable (0, [])
  | submit {s : Nat × List (String × String)} (input : String) :
      ProfileReachable s → ProfileReachable (display_profile_setup_submit s.1 s.2 input)

/-! ## Career assessment (`career_preference_questions`, `display_career_assessment`) -/

/-- The fixed career preference question set of `app.py`. -/
def career_preference_questions : List (String × String) :=
  [("interests", "What aspects of technology interest you the most? (e.g., coding, data analysis, system design)"),
   ("work_style", "Do you prefer working independently or in teams?"),
   ("learning_style", "How do you prefer to learn new skills?"),
   ("career_goals", "What are your long-term career goals in the tech industry?")]

/-- One submission of the Career Assessment form.  The form renders a text
area only for preference keys not already present in `career_preferences`
(the `if key not in st.session_state.career_preferences` guard), and on submit
stores exactly the non-empty collected responses. -/
def display_career_assessment_submit (career_preferences : List (String × String))
    (responses : String → String) : List (String × String) :=
  let shown := career_preference_questions.filter
    (fun q => !(career_preferences.any (fun p => p.1 == q.1)))
  shown.foldl
    (fun acc q => if responses q.1 ≠ "" then dict_set acc q.1 (responses q.1) else acc)
    career_preferences

/-! ## Session state (`initialize_session_state`, startup, `Start Fresh`) -/

/-- Per-skill slider ratings: `skills_gap` maps a category to a map from skill
name to the integer rating. -/
abbrev Ratings : Type := List (String × List (String × Nat))

/-- Embedding of `st.session_state` as a record of named slots; an `Option` field is `none`
exactly when the key is absent from the session dict.  The opaque model chat
handle is embedded as `Unit`. -/
structure SessionDict where
  page : Option String
  chat_session : Option Unit
  chat_stage : Option Nat
  user_data : Option (List (String × String))
  career_preferences : Option (List (String × String))
  skills_assessment : Option (List (String × String))
  career_path_recommendations : Option (List String)
  selected_career_path : Option (Option String)
  learning_roadmap : Option (Option Unit)
  consultation_history : Option (List (String × String))
  skills_gap : Option Ratings
  break_duration : Option ℚ
  learning_progress : Option (List (String × Nat))
deriving DecidableEq

/-- The session dict right after `st.session_state.clear()` (or at the very
first run): every key absent. -/
def empty_session : SessionDict :=
  { page := none, chat_session := none, chat_stage := none, user_data := none,
    career_preferences := none, skills_assessment := none,
    career_path_recommendations := none, selected_career_path := none,
    learning_roadmap := none, consultation_history := none, skills_gap := none,
    break_duration := none, learning_progress := none }

/-- Embedding of `initialize_session_state`: for each key of `state_defaults`, set the
default value only if the key is not already present. -/
def initialize_session_state (s : SessionDict) : SessionDict :=
  { s with
    chat_session := some (s.chat_session.getD ()),
    chat_stage := some (s.chat_stage.getD 0),
    user_data := some (s.user_data.getD []),
    career_preferences := some (s.career_preferences.getD []),
    skills_assessment := some (s.skills_assessment.getD []),
    career_path_recommendations := some (s.career_path_recommendations.getD []),
    selected_career_path := some (s.selected_career_path.getD none),
    learning_roadmap := some (s.learning_roadmap.getD none) }

/-- The top-level `if "page" not in st.session_state: st.session_state.page =
"Profile Setup"` check. -/
def set_default_page (s : SessionDict) : SessionDict :=
  if s.page.isSome then s else { s with page := some "Profile Setup" }

/-- One top-to-bottom script startup pass: fill the state defaults, then the
default page. -/
def startup (s : SessionDict) : SessionDict :=
  set_default_page (initialize_session_state s)

/-- A freshly initialized session: the startup pass over an empty session dict. -/
def fresh_session : SessionDict := startup empty_session

/-- The `Start Fresh` button handler: `st.session_state.clear()`, then
`st.session_state.page = "Profile Setup"`, then `st.rerun()` (which runs the
startup pass again). -/
def start_fresh (_s : SessionDict) : SessionDict :=
  startup { empty_session with page := some "Profile Setup" }

/-! ## Career recommendations page (`display_career_recommendations`) -/

/-- What a page routine renders, as far as the precondition-guard claims are
concerned: whether a guidance (warning) message is shown, which page a
one-click redirect button targets if one is shown, and whether the page's own
content (recommendation selector / career details / roadmap body) is shown. -/
structure PageRender where
  guidance : Bool
  redirect_target : Option String
  content : Bool
deriving DecidableEq

/-- The hard-coded fallback recommendation list used when the model call or
the parse of its reply fails. -/
def fallback_recommendations : List String :=
  ["Software Development", "Data Science", "Machine Learning Engineering",
   "DevOps Engineering", "Data Analytics", "Cybersecurity", "UI/UX Design",
   "Digital Marketing", "Product Management", "Business Analysis",
   "Technical Writing", "IT Project Management", "IT Sales & Business Development"]

/-- The hard-coded technical career path list used by the category filter. -/
def technical_paths_list : List String :=
  ["Software Development", "Data Science", "Machine Learning Engineering",
   "DevOps Engineering", "Data Analytics", "Cybersecurity", "UI/UX Design"]

/-- The hard-coded non-technical career path list used by the category filter. -/
def non_technical_paths_list : List String :=
  ["Digital Marketing", "Product Management", "Business Analysis",
   "Technical Writing", "IT Project Management", "IT Sales & Business Development"]

/-- The career paths offered by the selectbox for the chosen category radio
value: the recommendation list filtered by hard-coded category membership. -/
def paths_to_show (category : String) (all_paths : List String) : List String :=
  if category = "Technical Careers" then
    all_paths.filter (fun p => technical_paths_list.contains p)
  else if category = "Non-Technical Careers" then
    all_paths.filter (fun p => non_technical_paths_list.contains p)
  else all_paths

/-- One pass of `display_career_recommendations`.  `ai` is the outcome of the
recommendation-generation call together with the JSON parse and field
extraction: `.ok paths` is the extracted `career_path` list of a structurally
valid reply, `.error msg` is any call or parse failure (the bare `except`).
`choice` is the selectbox value (`none` when the filtered list is empty, in
which case `if selected_path:` skips the write).  Returns the new
recommendation list, the new selected career path, and the render. -/
def display_career_recommendations_step
    (career_preferences : List (String × String))
    (recs : List String) (selected : Option String)
    (ai : Except String (List String))
    (_category : String) (choice : Option String) :
    List String × Option String × PageRender :=
  let recs1 :=
    if recs.isEmpty then
      if !career_preferences.isEmpty then
        match ai with
        | .ok paths => paths
        | .error _ => fallback_recommendations
      else recs
    else recs
  let selected1 :=
    if recs1.isEmpty then selected
    else
      match choice with
      | some p => some p
      | none => selected
  (recs1, selected1,
   { guidance := false, redirect_target := none,
     content := !recs1.isEmpty || selected1.isSome })

/-! ## Learning roadmap page (`display_learning_roadmap`) -/

/-- The precondition guard of `display_learning_roadmap`: with no selected
career path it renders a warning plus a `Go to Career Recommendations` button
and returns early; otherwise it renders the roadmap content. -/
def display_learning_roadmap (selected : Option String) : PageRender :=
  match selected with
  | none => { guidance := true, redirect_target := some "Career Recommendations", content := false }
  | some _ => { guidance := false, redirect_target := none, content := true }

/-- The reachable values of the pair `(career_path_recommendations,
selected_career_path)`.  These two slots are written only by
`initialize_session_state` (defaults `[]` and `None`, also restored by the
`Start Fresh` clear) and by `display_career_recommendations`; the `hchoice`
premise records the selectbox guarantee that a non-`None` selection is drawn
from the offered `paths_to_show` list. -/
inductive RecsReachable : List String × Option String → Prop where
  | init : RecsReachable ([], none)
  | reset {s : List String × Option String} : RecsReachable s → RecsReachable ([], none)
  | page_step {s : List String × Option String}
      (prefs : List (String × String)) (ai : Except String (List String))
      (category : String) (choice : Option String)
      (h : RecsReachable s)
      (hchoice : ∀ p, choice = some p →
        p ∈ paths_to_show category
          (display_career_recommendations_step prefs s.1 s.2 ai category choice).1) :
      RecsReachable
        ((display_career_recommendations_step prefs s.1 s.2 ai category choice).1,
         (display_career_recommendations_step prefs s.1 s.2 ai category choice).2.1)

/-! ## Static market data (`fetch_job_market_data`) -/

/-- One record of the hard-coded job market table. -/
structure MarketRecord where
  growth_rate : Nat
  demand_score : Nat
  min_salary : Nat
  trending_skills : List String
  job_postings_trend : List Nat
deriving DecidableEq

/-- The hard-coded `market_data` table of `fetch_job_market_data`, in source
order. -/
def market_data : List (String × MarketRecord) :=
  [("Software Development",
    { growth_rate := 25, demand_score := 85, min_salary := 500000,
      trending_skills := ["Python", "JavaScript", "Cloud Computing", "DevOps"],
      job_postings_trend := [1200, 1350, 1500, 1800, 2100, 2400] }),
   ("Data Science",
    { growth_rate := 28, demand_score := 90, min_salary := 600000,
      trending_skills := ["Python", "Machine Learning", "SQL", "Deep Learning"],
      job_postings_trend := [800, 1000, 1300, 1600, 2000, 2500] }),
   ("Machine Learning Engineering",
    { growth_rate := 30, demand_score := 88, min_salary := 700000,
      trending_skills := ["TensorFlow", "PyTorch", "Computer Vision", "NLP"],
      job_postings_trend := [600, 800, 1100, 1500, 1900, 2300] }),
   ("DevOps Engineering",
    { growth_rate := 22, demand_score := 82, min_salary := 600000,
      trending_skills := ["Docker", "Kubernetes", "AWS", "CI/CD"],
      job_postings_trend := [900, 1100, 1400, 1700, 2000, 2200] }),
   ("Data Analytics",
    { growth_rate := 23, demand_score := 80, min_salary := 450000,
      trending_skills := ["SQL", "Python", "Tableau", "Power BI"],
      job_postings_trend := [1000, 1200, 1400, 1600, 1800, 2000] }),
   ("Cybersecurity",
    { growth_rate := 32, demand_score := 92, min_salary := 550000,
      trending_skills := ["Network Security", "Ethical Hacking", "Security Tools", "Risk Assessment"],
      job_postings_trend := [900, 1100, 1400, 1800, 2200, 2600] }),
   ("UI/UX Design",
    { growth_rate := 24, demand_score := 84, min_salary := 450000,
      trending_skills := ["Figma", "User Research", "Wireframing", "Design Systems"],
      job_postings_trend := [800, 1000, 1200, 1500, 1800, 2100] }),
   ("Digital Marketing",
    { growth_rate := 20, demand_score := 78, min_salary := 400000,
      trending_skills := ["SEO", "Social Media", "Content Strategy", "Analytics"],
      job_postings_trend := [1100, 1300, 1500, 1700, 1900, 2100] }),
   ("Product Management",
    { growth_rate := 27, demand_score := 86, min_salary := 800000,
      trending_skills := ["Agile", "Product Strategy", "User Stories", "Roadmapping"],
      job_postings_trend := [700, 900, 1200, 1500, 1800, 2200] }),
   ("Business Analysis",
    { growth_rate := 21, demand_score := 79, min_salary := 450000,
      trending_skills := ["Requirements Gathering", "Process Modeling", "Data Analysis", "Stakeholder Management"],
      job_postings_trend := [800, 1000, 1200, 1400, 1600, 1900] }),
   ("Technical Writing",
    { growth_rate := 18, demand_score := 75, min_salary := 400000,
      trending_skills := ["Documentation", "API Writing", "Content Management", "Information Architecture"],
      job_postings_trend := [500, 600, 800, 1000, 1200, 1400] }),
   ("IT Project Management",
    { growth_rate := 24, demand_score := 83, min_salary := 700000,
      trending_skills := ["Project Planning", "Risk Management", "Team Leadership", "Budgeting"],
      job_postings_trend := [900, 1100, 1300, 1600, 1900, 2200] }),
   ("IT Sales & Business Development",
    { growth_rate := 19, demand_score := 77, min_salary := 450000,
      trending_skills := ["Solution Selling", "CRM", "Relationship Building", "Technical Knowledge"],
      job_postings_trend := [700, 900, 1100, 1300, 1500, 1800] })]

/-- Embedding of `fetch_job_market_data`, that is `market_data.get(career_path, ...)`, with the
empty-dict default embedded as `none`. -/
def fetch_job_market_data (career_path : String) : Option MarketRecord :=
  market_data.lookup career_path

/-- The key set of the static knowledge table. -/
def static_career_keys : List String := market_data.map Prod.fst

/-! ## Skills table (`get_industry_skills`) -/

/-- One learning resource of the skills table. -/
structure Resource where
  name : String
  url : String
deriving DecidableEq

/-- One skill of the skills table: name, required proficiency weight, and
learning resources. -/
structure Skill where
  name : String
  weight : Nat
  resources : List Resource
deriving DecidableEq

/-- The nested skill table of `get_industry_skills`: category → skill list,
with `industry_skills.get(career_path, {})` embedded as the empty list. -/
def get_industry_skills (career_path : String) : List (String × List Skill) :=
  if career_path = "Software Development" then
    [("Technical",
      [{ name := "Modern JavaScript (ES6+)", weight := 4, resources :=
         [{ name := "Modern JavaScript Course", url := "https://www.udemy.com/course/modern-javascript-from-novice-to-ninja/" },
          { name := "JavaScript.info", url := "https://javascript.info/" },
          { name := "MDN Web Docs", url := "https://developer.mozilla.org/en-US/docs/Web/JavaScript" }] },
       { name := "React/Angular/Vue.js", weight := 4, resources :=
         [{ name := "React - The Complete Guide", url := "https://www.udemy.com/course/react-the-complete-guide-incl-redux/" },
          { name := "Vue.js Course", url := "https://www.udemy.com/course/vuejs-2-the-complete-guide/" },
          { name := "Angular Tutorial", url := "https://angular.io/tutorial" }] },
       { name := "Node.js", weight := 3, resources :=
         [{ name := "Node.js Complete Guide", url := "https://www.udemy.com/course/nodejs-the-complete-guide/" },
          { name := "Node.js Documentation", url := "https://nodejs.org/en/docs/" }] },
       { name := "Cloud Services (AWS/Azure/GCP)", weight := 4, resources :=
         [{ name := "AWS Certified Developer", url := "https://www.udemy.com/course/aws-certified-developer-associate/" },
          { name := "Azure Fundamentals", url := "https://learn.microsoft.com/en-us/training/azure/" }] },
       { name := "Docker & Kubernetes", weight := 3, resources :=
         [{ name := "Docker & Kubernetes Course", url := "https://www.udemy.com/course/docker-and-kubernetes-the-complete-guide/" },
          { name := "Kubernetes Documentation", url := "https://kubernetes.io/docs/home/" }] }]),
     ("Tools",
      [{ name := "Git & GitHub", weight := 5, resources :=
         [{ name := "Git Complete Guide", url := "https://www.udemy.com/course/git-complete/" },
          { name := "GitHub Learning Lab", url := "https://lab.github.com/" }] },
       { name := "VS Code/Modern IDEs", weight := 4, resources :=
         [{ name := "VS Code Tutorial", url := "https://code.visualstudio.com/docs" },
          { name := "VS Code Can Do That?", url := "https://www.vscodecandothat.com/" }] },
       { name := "Testing Frameworks", weight := 4, resources :=
         [{ name := "JavaScript Testing Course", url := "https://www.udemy.com/course/javascript-unit-testing-the-practical-guide/" },
          { name := "Jest Documentation", url := "https://jestjs.io/docs/getting-started" }] }]),
     ("Soft Skills",
      [{ name := "Agile Methodologies", weight := 4, resources :=
         [{ name := "Agile Fundamentals", url := "https://www.coursera.org/learn/agile-fundamentals" },
          { name := "Scrum Guide", url := "https://scrumguides.org/" }] },
       { name := "Technical Communication", weight := 5, resources :=
         [{ name := "Technical Writing Course", url := "https://www.coursera.org/learn/technical-writing" },
          { name := "Google Technical Writing", url := "https://developers.google.com/tech-writing" }] },
       { name := "Problem-Solving", weight := 5, resources :=
         [{ name := "LeetCode Problems", url := "https://leetcode.com/problemset/all/" },
          { name := "HackerRank Challenges", url := "https://www.hackerrank.com/domains/algorithms" }] }])]
  else if career_path = "Data Science" then
    [("Technical",
      [{ name := "Python for Data Science", weight := 5, resources :=
         [{ name := "Python for Data Science", url := "https://www.udemy.com/course/python-for-data-science-and-machine-learning-bootcamp/" },
          { name := "DataCamp Python Track", url := "https://www.datacamp.com/tracks/python-programmer" }] },
       { name := "Machine Learning", weight := 4, resources :=
         [{ name := "Machine Learning A-Z", url := "https://www.udemy.com/course/machinelearning/" },
          { name := "Stanford ML Course", url := "https://www.coursera.org/learn/machine-learning" }] },
       { name := "Deep Learning", weight := 3, resources :=
         [{ name := "Deep Learning Specialization", url := "https://www.coursera.org/specializations/deep-learning" },
          { name := "Fast.ai Course", url := "https://www.fast.ai/" }] },
       { name := "Statistical Analysis", weight := 4, resources :=
         [{ name := "Statistics for Data Science", url := "https://www.coursera.org/specializations/statistics" },
          { name := "Khan Academy Statistics", url := "https://www.khanacademy.org/math/statistics-probability" }] }]),
     ("Tools",
      [{ name := "SQL & Databases", weight := 5, resources :=
         [{ name := "Complete SQL Bootcamp", url := "https://www.udemy.com/course/the-complete-sql-bootcamp/" },
          { name := "Mode SQL Tutorial", url := "https://mode.com/sql-tutorial/" }] },
       { name := "Jupyter & Data Tools", weight := 4, resources :=
         [{ name := "Jupyter Tutorial", url := "https://jupyter.org/try" },
          { name := "Pandas Documentation", url := "https://pandas.pydata.org/docs/" }] },
       { name := "Visualization Tools", weight := 4, resources :=
         [{ name := "Data Visualization Course", url := "https://www.coursera.org/learn/data-visualization" },
          { name := "Tableau Training", url := "https://www.tableau.com/learn/training" }] }]),
     ("Soft Skills",
      [{ name := "Data Storytelling", weight := 4, resources :=
         [{ name := "Data Storytelling Course", url := "https://www.coursera.org/learn/data-stories" },
          { name := "Storytelling with Data", url := "https://www.storytellingwithdata.com/" }] },
       { name := "Business Acumen", weight := 4, resources :=
         [{ name := "Business Analytics", url := "https://www.coursera.org/specializations/business-analytics" },
          { name := "Harvard Business Review", url := "https://hbr.org/topic/analytics" }] },
       { name := "Research Methodology", weight := 3, resources :=
         [{ name := "Research Methods Course", url := "https://www.coursera.org/learn/research-methods" },
          { name := "Google Scholar", url := "https://scholar.google.com/" }] }])]
  else []

/-! ## Skills gap analysis (`display_skills_gap_analysis`) -/

/-- Embedding of `st.session_state.skills_gap.get(category, ...).get(skill_name, 0)`. -/
def ratingOf (sg : Ratings) (category skill_name : String) : Nat :=
  dictGetD (dictGetD sg category []) skill_name 0

/-- The per-skill shortfall `skill["weight"] - rating` computed by the page
(shown as the `Gap` badge when positive). -/
def skill_gap (sg : Ratings) (category : String) (sk : Skill) : Int :=
  (sk.weight : Int) - (ratingOf sg category sk.name : Int)

/-- One entry of the `all_gaps` list built by the page. -/
structure GapEntry where
  category : String
  skill : String
  gap : Int
  priority : Int
  resources : List Resource
deriving DecidableEq

/-- The `all_gaps` list: for each category and skill of the table, with
`gap = skill["weight"] - current_rating`, the skills with `gap > 0`, each
carrying `priority = gap * skill["weight"]`, in table order. -/
def all_gaps (table : List (String × List Skill)) (sg : Ratings) : List GapEntry :=
  table.flatMap fun c =>
    c.2.filterMap fun sk =>
      let current_rating : Int := (ratingOf sg c.1 sk.name : Int)
      let gap : Int := (sk.weight : Int) - current_rating
      if gap > 0 then
        some { category := c.1, skill := sk.name, gap := gap,
               priority := gap * (sk.weight : Int), resources := sk.resources }
      else none

/-- Embedding of `all_gaps.sort(key=lambda x: x["priority"], reverse=True)`: a stable sort
by descending priority. -/
def prioritized_gaps (table : List (String × List Skill)) (sg : Ratings) : List GapEntry :=
  (all_gaps table sg).mergeSort (fun a b => decide (b.priority ≤ a.priority))

/-- Embedding of `total_skills = sum(len(skills) for skills in industry_skills.values())`. -/
def total_skills (table : List (String × List Skill)) : Nat :=
  (table.map fun c => c.2.length).sum

/-- The weight of `industry_skills[category][0]`, the first skill of a
category (categories of the table are never empty). -/
def head_weight : List Skill → Nat
  | [] => 0
  | sk :: _ => sk.weight

/-- The `completed_skills` count as the code computes it: a skill counts when
its rating is at least `industry_skills[category][0]["weight"]`, the weight of
the FIRST skill of its category. -/
def completed_skills (table : List (String × List Skill)) (sg : Ratings) : Nat :=
  (table.map fun c =>
    (c.2.filter fun sk => decide (head_weight c.2 ≤ ratingOf sg c.1 sk.name)).length).sum

/-- Embedding of `progress_percentage = (completed_skills / total_skills) * 100`, with
Python true division embedded in `ℚ`. -/
def progress_percentage (table : List (String × List Skill)) (sg : Ratings) : ℚ :=
  ((completed_skills table sg : ℚ) / (total_skills table : ℚ)) * 100

/-- Modelled from the spec (§4.4, not computed anywhere in `app.py`): the
count of skills whose rating reaches that skill's OWN required weight. -/
def spec_completed_skills (table : List (String × List Skill)) (sg : Ratings) : Nat :=
  (table.map fun c =>
    (c.2.filter fun sk => decide (sk.weight ≤ ratingOf sg c.1 sk.name)).length).sum

/-- Modelled from the spec (§4.4): `100 * (count of skills with rating >=
requiredWeight) / (total skill count)`. -/
def spec_progress_percentage (table : List (String × List Skill)) (sg : Ratings) : ℚ :=
  100 * (spec_completed_skills table sg : ℚ) / (total_skills table : ℚ)

/-- What the Skills Gap Analysis page renders after its guards. -/
inductive SkillsGapRender where
  /-- Case of empty `user_data`: warning plus `Go to Profile Setup` button, early return. -/
  | profile_redirect : SkillsGapRender
  /-- Case where `get_industry_skills` returned an empty table (`if industry_skills:` is
  false): no assessment, no gaps, no progress percentage rendered. -/
  | no_table : SkillsGapRender
  /-- The analysis body: the prioritized learning path and the overall
  progress percentage. -/
  | analysis (gaps : List GapEntry) (progress : ℚ) : SkillsGapRender

/-- Embedding of `display_skills_gap_analysis` for a chosen target career path and the
stored ratings. -/
def display_skills_gap_analysis (user_data : List (String × String))
    (selected_career : String) (sg : Ratings) : SkillsGapRender :=
  if user_data.isEmpty then .profile_redirect
  else
    let table := get_industry_skills selected_career
    if table.isEmpty then .no_table
    else .analysis (prioritized_gaps table sg) (progress_percentage table sg)

/-! ## Theorems -/

/-- Claim C7: triggering the `Start Fresh` reset from any session state yields
a session equal to a freshly initialized one: all collections empty, stage 0,
and current page `Profile Setup` (with the lazily-created slots —
consultation history, skills gap ratings, break duration, learning progress —
absent, exactly as at a fresh start). -/
theorem start_fresh_resets_session (s : SessionDict) :
    start_fresh s = fresh_session
    ∧ fresh_session.page = some "Profile Setup"
    ∧ fresh_session.chat_stage = some 0
    ∧ fresh_session.user_data = some []
    ∧ fresh_session.career_preferences = some []
    ∧ fresh_session.skills_assessment = some []
    ∧ fresh_session.career_path_recommendations = some []
    ∧ fresh_session.selected_career_path = some none
    ∧ fresh_session.consultation_history = none
    ∧ fresh_session.skills_gap = none :=
  ⟨rfl, rfl, rfl, rfl, rfl, rfl, rfl, rfl, rfl, rfl⟩

/-- Witness for `start_fresh_resets_session` at a concrete session. -/
theorem start_fresh_resets_session_witness :
    start_fresh fresh_session = fresh_session :=
  (start_fresh_resets_session fresh_session).1

/-- Claim C8: submitting the profile answers `["Jane Doe", "29", "BSc CS",
"3 yrs backend"]` in order from a fresh profile state yields `user_data` with
exactly the four question keys mapped to those answers, and the completion
condition `chat_stage == len(profile_questions)` holds (both sides are 4). -/
theorem profile_example_end_to_end :
    (["Jane Doe", "29", "BSc CS", "3 yrs backend"].foldl
        (fun s input => display_profile_setup_submit s.1 s.2 input) (0, []))
      = (4, [("Full Name", "Jane Doe"), ("Age", "29"), ("Education", "BSc CS"),
             ("Technical Background", "3 yrs backend")])
    ∧ profile_questions.length = 4 :=
  ⟨rfl, rfl⟩

/-- Claim C3, counterexample: entering Career Recommendations with
`career_preferences` empty (prerequisite missing, nothing recommended or
selected yet) does NOT render a guidance message or any redirect button — the
routine has no such branch; it renders only the header. -/
theorem career_recommendations_missing_prereq_counterexample :
    ¬ (((display_career_recommendations_step [] [] none (Except.error "model failure")
           "All Careers" none).2.2).guidance = true
       ∧ ((display_career_recommendations_step [] [] none (Except.error "model failure")
           "All Careers" none).2.2).redirect_target.isSome = true) := by
  decide

/-- Claim C3, amended: Learning Roadmap with `selected_career_path = None`
renders the guidance/redirect branch (target `Career Recommendations`) and no
roadmap content; Career Recommendations never fails on a missing prerequisite
either, but with `career_preferences` empty it renders neither guidance nor a
redirect nor content — only the page header (and more generally it never
renders a guidance message on any input). -/
theorem missing_prerequisite_renders (ai : Except String (List String))
    (category : String) :
    display_learning_roadmap none
      = { guidance := true, redirect_target := some "Career Recommendations",
          content := false }
    ∧ (display_career_recommendations_step [] [] none ai category none).2.2
      = { guidance := false, redirect_target := none, content := false }
    ∧ (∀ prefs recs selected choice,
        ((display_career_recommendations_step prefs recs selected ai category
            choice).2.2).guidance = false) :=
  ⟨rfl, rfl, fun _ _ _ _ => rfl⟩

/-- Witness for `missing_prerequisite_renders` at a concrete model outcome
and category. -/
theorem missing_prerequisite_renders_witness :
    display_learning_roadmap none
      = { guidance := true, redirect_target := some "Career Recommendations",
          content := false } :=
  (missing_prerequisite_renders (Except.error "model failure") "All Careers").1

/-- Claim C5: whenever the recommendation-generation call fails or its reply
cannot be parsed into the expected structured shape (the `.error` case of the
embedded call outcome), the page stores the fixed 13-item fallback list — 7 of
its entries in the hard-coded technical category list and 6 in the hard-coded
non-technical one — independently of the underlying error, which the `except`
swallows (the embedded routine is total). -/
theorem recommendation_fallback_on_failure (prefs : List (String × String))
    (err : String) (selected : Option String) (category : String)
    (choice : Option String) (hp : prefs ≠ []) :
    (display_career_recommendations_step prefs [] selected (Except.error err)
        category choice).1 = fallback_recommendations
    ∧ fallback_recommendations.length = 13
    ∧ (fallback_recommendations.filter
        (fun p => technical_paths_list.contains p)).length = 7
    ∧ (fallback_recommendations.filter
        (fun p => non_technical_paths_list.contains p)).length = 6 := by
  refine ⟨?_, by decide, by decide, by decide⟩
  cases prefs with
  | nil => exact absurd rfl hp
  | cons a l => rfl

/-- Witness for `recommendation_fallback_on_failure` at a concrete failing
call. -/
theorem recommendation_fallback_on_failure_witness :
    (display_career_recommendations_step [("interests", "coding")] [] none
        (Except.error "boom") "All Careers" none).1 = fallback_recommendations
    ∧ fallback_recommendations.length = 13
    ∧ (fallback_recommendations.filter
        (fun p => technical_paths_list.contains p)).length = 7
    ∧ (fallback_recommendations.filter
        (fun p => non_technical_paths_list.contains p)).length = 6 :=
  recommendation_fallback_on_failure [("interests", "coding")] "boom" none
    "All Careers" none (by decide)

/-- Claim C1 names the intended formula, but the code's progress computation
compares each skill's rating against `industry_skills[category][0]["weight"]`
— the weight of the FIRST skill of the category — instead of the skill's own
weight.  At the failing input (Software Development, with `Node.js` — own
weight 3, but first-of-category weight 4 — rated 3 and everything else 0) the
code's percentage is `0` while the claimed formula gives `100/11`; the same
function's own per-skill badge marks `Node.js` as proficient (rating ≥ own
weight), which the progress count then contradicts. -/
theorem progress_percentage_uses_head_weight :
    completed_skills (get_industry_skills "Software Development")
        [("Technical", [("Node.js", 3)])] = 0
    ∧ spec_completed_skills (get_industry_skills "Software Development")
        [("Technical", [("Node.js", 3)])] = 1
    ∧ progress_percentage (get_industry_skills "Software Development")
        [("Technical", [("Node.js", 3)])] = 0
    ∧ spec_progress_percentage (get_industry_skills "Software Development")
        [("Technical", [("Node.js", 3)])] = 100 / 11
    ∧ (∃ c ∈ get_industry_skills "Software Development", ∃ sk ∈ c.2,
        sk.name = "Node.js"
        ∧ sk.weight ≤ ratingOf [("Technical", [("Node.js", 3)])] c.1 sk.name) := by
  have h0 : completed_skills (get_industry_skills "Software Development")
      [("Technical", [("Node.js", 3)])] = 0 := by decide
  have h1 : spec_completed_skills (get_industry_skills "Software Development")
      [("Technical", [("Node.js", 3)])] = 1 := by decide
  have ht : total_skills (get_industry_skills "Software Development") = 11 := by decide
  refine ⟨h0, h1, ?_, ?_, by decide⟩
  · rw [progress_percentage, h0, ht]
    norm_num
  · rw [spec_progress_percentage, h1, ht]
    norm_num

/-- Claim C4, counterexample: `get_industry_skills` has no entry for
`Cybersecurity`, so opening Skills Gap Analysis with that target path renders
no skills assessment at all — in particular no overall progress percentage
(`0.0` or otherwise) and no per-skill gaps. -/
theorem cybersecurity_gap_page_counterexample :
    display_skills_gap_analysis [("Full Name", "Jane Doe")] "Cybersecurity" []
      = SkillsGapRender.no_table
    ∧ ¬ ∃ gaps, display_skills_gap_analysis [("Full Name", "Jane Doe")]
        "Cybersecurity" [] = SkillsGapRender.analysis gaps 0 := by
  refine ⟨rfl, ?_⟩
  rintro ⟨gaps, h⟩
  rw [show display_skills_gap_analysis [("Full Name", "Jane Doe")] "Cybersecurity" []
        = SkillsGapRender.no_table from rfl] at h
  exact SkillsGapRender.noConfusion h

/-- Claim C4, amended: for a career path that IS in the skills table —
`Software Development` here — opening the page with no prior ratings gives
every skill a gap equal to its own required weight and an overall progress
percentage of exactly `0`; for `Cybersecurity` the table is empty and no
analysis is rendered (see the counterexample). -/
theorem software_development_gap_page_zero_ratings :
    (∀ c ∈ get_industry_skills "Software Development", ∀ sk ∈ c.2,
        skill_gap [] c.1 sk = (sk.weight : Int))
    ∧ progress_percentage (get_industry_skills "Software Development") [] = 0
    ∧ display_skills_gap_analysis [("Full Name", "Jane Doe")]
        "Software Development" []
      = SkillsGapRender.analysis
          (prioritized_gaps (get_industry_skills "Software Development") [])
          (progress_percentage (get_industry_skills "Software Development") []) := by
  have h0 : completed_skills (get_industry_skills "Software Development") [] = 0 := by
    decide
  refine ⟨by decide, ?_, rfl⟩
  rw [progress_percentage, h0]
  norm_num

/-- Lemma: lookups under a different key are unchanged by the overwrite branch
of `dict_set`. -/
theorem lookup_map_overwrite (d : List (String × String)) {k k2 : String} (v : String)
    (h : k ≠ k2) :
    (d.map (fun p => if p.1 == k2 then (p.1, v) else p)).lookup k = d.lookup k := by
  induction d with
  | nil => rfl
  | cons p t ih =>
    obtain ⟨a, b⟩ := p
    rw [List.map_cons]
    by_cases hp : a = k2
    · rw [if_pos (by simpa using hp)]
      rw [List.lookup_cons, List.lookup_cons,
        show (k == a) = false from by simpa using fun e => h (e.trans hp)]
      exact ih
    · rw [if_neg (by simpa using hp)]
      rw [List.lookup_cons, List.lookup_cons]
      cases hkp : k == a with
      | true => rfl
      | false => exact ih

/-- Lemma: lookups under a different key are unchanged by appending one
binding. -/
theorem lookup_append_single_ne (d : List (String × String)) {k k2 : String} (v : String)
    (h : k ≠ k2) : (d ++ [(k2, v)]).lookup k = d.lookup k := by
  induction d with
  | nil =>
    rw [List.nil_append, List.lookup_nil, List.lookup_cons,
      show (k == k2) = false from by simpa using h]
    rfl
  | cons p t ih =>
    obtain ⟨a, b⟩ := p
    rw [List.cons_append, List.lookup_cons, List.lookup_cons]
    cases hkp : k == a with
    | true => rfl
    | false => exact ih

/-- Lemma: a Python dict assignment under a different key does not change a
lookup. -/
theorem lookup_dict_set_ne (d : List (String × String)) {k k2 : String} (v : String)
    (h : k ≠ k2) : (dict_set d k2 v).lookup k = d.lookup k := by
  unfold dict_set
  split
  · exact lookup_map_overwrite d v h
  · exact lookup_append_single_ne d v h

/-- Lemma: a successful lookup means some pair carries the key. -/
theorem any_fst_of_lookup {d : List (String × String)} {k v : String}
    (h : d.lookup k = some v) : d.any (fun p => p.1 == k) = true := by
  induction d with
  | nil => simp at h
  | cons p t ih =>
    obtain ⟨a, b⟩ := p
    rw [List.lookup_cons] at h
    rw [List.any_cons]
    cases hkp : k == a with
    | true =>
      have : (a == k) = true := by
        have := (beq_iff_eq).mp hkp
        simp [this]
      simp [this]
    | false =>
      rw [hkp] at h
      simp [ih h]

/-- Lemma: the assessment submit fold preserves a stored lookup as long as
every folded question key differs from it. -/
theorem foldl_submit_preserves_lookup (responses : String → String) (k v : String) :
    ∀ (qs : List (String × String)) (acc : List (String × String)),
      (∀ q ∈ qs, q.1 ≠ k) → acc.lookup k = some v →
      (qs.foldl
        (fun acc q => if responses q.1 ≠ "" then dict_set acc q.1 (responses q.1) else acc)
        acc).lookup k = some v
  | [], _, _, hacc => hacc
  | q :: qs, acc, hqs, hacc => by
    rw [List.foldl_cons]
    apply foldl_submit_preserves_lookup responses k v qs _
      (fun q' hq' => hqs q' (List.mem_cons_of_mem _ hq'))
    by_cases hr : responses q.1 ≠ ""
    · rw [if_pos hr,
        lookup_dict_set_ne acc (responses q.1) (Ne.symm (hqs q (List.mem_cons_self q qs)))]
      exact hacc
    · rw [if_neg hr]
      exact hacc

/-- Claim C10: once a preference key is stored in `career_preferences`, no
later Career Assessment submission can modify or remove its answer: the form
collects responses only for keys not yet stored, so every stored answer is
looked up unchanged after any submission with any responses. -/
theorem career_assessment_preserves_stored_answers
    (career_preferences : List (String × String)) (responses : String → String)
    (k v : String) (h : career_preferences.lookup k = some v) :
    (display_career_assessment_submit career_preferences responses).lookup k
      = some v := by
  apply foldl_submit_preserves_lookup
  · intro q hq hk
    have hmem := List.of_mem_filter hq
    rw [hk] at hmem
    rw [any_fst_of_lookup h] at hmem
    simp at hmem
  · exact h

/-- Witness for `career_assessment_preserves_stored_answers`: a stored
`interests` answer survives a submission that fills every rendered field. -/
theorem career_assessment_preserves_stored_answers_witness :
    (display_career_assessment_submit [("interests", "coding")]
      (fun _ => "resp")).lookup "interests" = some "coding" :=
  career_assessment_preserves_stored_answers [("interests", "coding")]
    (fun _ => "resp") "interests" "coding" rfl

/-- Lemma: `any` over the key test factors through mapping to keys. -/
theorem any_fst_eq_any_map (d : List (String × String)) (k : String) :
    d.any (fun p => p.1 == k) = (d.map Prod.fst).any (fun x => x == k) := by
  induction d with
  | nil => rfl
  | cons p t ih => simp [ih]

/-- Lemma: in every reachable profile-setup state, the stored keys are exactly
the first `chat_stage` question keys (in order), and the stage never exceeds
the question count. -/
theorem profile_reachable_keys :
    ∀ {s : Nat × List (String × String)}, ProfileReachable s →
      s.2.map Prod.fst = (profile_questions.take s.1).map Prod.fst
      ∧ s.1 ≤ profile_questions.length := by
  intro s h
  induction h with
  | init => exact ⟨rfl, by decide⟩
  | @submit s input h ih =>
    obtain ⟨hkeys, hle⟩ := ih
    obtain ⟨st, d⟩ := s
    simp only at hkeys hle
    unfold display_profile_setup_submit
    by_cases hlt : st < profile_questions.length
    · rw [if_pos hlt]
      by_cases hin : input ≠ ""
      · rw [if_pos hin]
        have h4 : st < 4 := hlt
        have hfresh : d.any (fun p => p.1 == (profile_questions.getD st ("", "")).1)
            = false := by
          rw [any_fst_eq_any_map, hkeys]
          interval_cases st <;> rfl
        constructor
        · show (dict_set d (profile_questions.getD st ("", "")).1 input).map Prod.fst
            = (profile_questions.take (st + 1)).map Prod.fst
          unfold dict_set
          rw [if_neg (by simp only [hfresh]; decide)]
          rw [List.map_append, hkeys]
          interval_cases st <;> rfl
        · exact hlt
      · rw [if_neg hin]
        exact ⟨hkeys, hle⟩
    · rw [if_neg hlt]
      exact ⟨hkeys, hle⟩

/-- Claim C6: from any reachable profile-setup state where the form is shown
(`chat_stage < len(profile_questions)`), a submission with non-empty input
advances the stage by exactly 1 and appends exactly one new `user_data` entry,
keyed by the current question's key (the key is never already present, so
nothing is overwritten); a submission with empty input changes nothing — the
embedded step touches no other session slot in either case. -/
theorem profile_submit_effect (st : Nat) (d : List (String × String)) (input : String)
    (hreach : ProfileReachable (st, d)) (hlt : st < profile_questions.length) :
    (input ≠ "" →
      display_profile_setup_submit st d input
        = (st + 1, d ++ [((profile_questions.getD st ("", "")).1, input)]))
    ∧ (input = "" → display_profile_setup_submit st d input = (st, d)) := by
  have hkeys := (profile_reachable_keys hreach).1
  simp only at hkeys
  have h4 : st < 4 := hlt
  have hfresh : d.any (fun p => p.1 == (profile_questions.getD st ("", "")).1)
      = false := by
    rw [any_fst_eq_any_map, hkeys]
    interval_cases st <;> rfl
  constructor
  · intro hin
    unfold display_profile_setup_submit
    rw [if_pos hlt, if_pos hin]
    unfold dict_set
    rw [if_neg (by simp only [hfresh]; decide)]
  · intro hin
    unfold display_profile_setup_submit
    rw [if_pos hlt, if_neg (by simp [hin])]

/-- Witness for `profile_submit_effect`: from the fresh state, a non-empty
submission stores the answer under `Full Name` and advances to stage 1, and an
empty submission changes nothing. -/
theorem profile_submit_effect_witness :
    (display_profile_setup_submit 0 [] "Jane Doe" = (1, [("Full Name", "Jane Doe")]))
    ∧ (display_profile_setup_submit 0 [] "" = (0, [])) :=
  ⟨(profile_submit_effect 0 [] "Jane Doe" ProfileReachable.init (by decide)).1
      (by decide),
   (profile_submit_effect 0 [] "" ProfileReachable.init (by decide)).2 rfl⟩

/-- Lemma: the category filter only narrows the recommendation list. -/
theorem mem_of_mem_paths_to_show {category p : String} {all_paths : List String}
    (h : p ∈ paths_to_show category all_paths) : p ∈ all_paths := by
  unfold paths_to_show at h
  split_ifs at h
  · exact List.mem_of_mem_filter h
  · exact List.mem_of_mem_filter h
  · exact h

/-- Lemma: a list with a member is not empty. -/
theorem isEmpty_false_of_mem {α : Type} {l : List α} {x : α} (h : x ∈ l) :
    l.isEmpty = false := by
  cases l with
  | nil => cases h
  | cons a t => rfl

/-- Lemma: the recommendations page leaves a non-empty recommendation list
unchanged. -/
theorem recs_step_nonempty (prefs : List (String × String)) (recs : List String)
    (selected : Option String) (ai : Except String (List String))
    (category : String) (choice : Option String) (h : recs.isEmpty = false) :
    (display_career_recommendations_step prefs recs selected ai category choice).1
      = recs := by
  unfold display_career_recommendations_step
  simp only [h]
  rfl

/-- Lemma: the selected-path component of the recommendations page step,
written over the new recommendation list. -/
theorem recs_step_selected (prefs : List (String × String)) (recs : List String)
    (selected : Option String) (ai : Except String (List String))
    (category : String) (choice : Option String) :
    (display_career_recommendations_step prefs recs selected ai category choice).2.1
      = if (display_career_recommendations_step prefs recs selected ai category
            choice).1.isEmpty
        then selected
        else (match choice with | some q => some q | none => selected) := rfl

/-- Claim C9: in every reachable value of the pair
`(career_path_recommendations, selected_career_path)` — reachable through
initialization, `Start Fresh` resets, and recommendation-page passes, the only
writers of these slots — a non-`None` selected path is a member of the
recommendation list or of the static knowledge table's key set; in fact every
write keeps it inside the current recommendation list. -/
theorem selected_career_path_invariant :
    ∀ {s : List String × Option String}, RecsReachable s →
      ∀ p, s.2 = some p → p ∈ s.1 ∨ p ∈ static_career_keys := by
  intro s h
  induction h with
  | init => intro p hp; cases hp
  | reset h ih => intro p hp; cases hp
  | @page_step s prefs ai category choice h hchoice ih =>
    intro p hp
    simp only at hp ⊢
    rw [recs_step_selected] at hp
    cases hrecs1 :
        (display_career_recommendations_step prefs s.1 s.2 ai category choice).1.isEmpty with
    | true =>
      rw [hrecs1] at hp
      simp only [if_true] at hp
      rcases ih p hp with hmem | hstat
      · rw [recs_step_nonempty prefs s.1 s.2 ai category choice
          (isEmpty_false_of_mem hmem)]
        exact Or.inl hmem
      · exact Or.inr hstat
    | false =>
      rw [hrecs1] at hp
      simp only [Bool.false_eq_true, if_false] at hp
      cases choice with
      | some q =>
        simp only at hp
        have hq : q = p := Option.some.inj hp
        subst hq
        exact Or.inl (mem_of_mem_paths_to_show (hchoice q rfl))
      | none =>
        simp only at hp
        rcases ih p hp with hmem | hstat
        · rw [recs_step_nonempty prefs s.1 s.2 ai category none
            (isEmpty_false_of_mem hmem)]
          exact Or.inl hmem
        · exact Or.inr hstat

/-- Witness for `selected_career_path_invariant`: reach the state where the
fallback list is stored and `Cybersecurity` is selected, and read the
invariant off there. -/
theorem selected_career_path_invariant_witness :
    "Cybersecurity" ∈ fallback_recommendations
    ∨ "Cybersecurity" ∈ static_career_keys := by
  have hreach : RecsReachable (fallback_recommendations, some "Cybersecurity") := by
    exact RecsReachable.page_step [("interests", "coding")] (Except.error "boom")
      "All Careers" (some "Cybersecurity") RecsReachable.init
      (by
        intro p hp
        cases Option.some.inj hp
        decide)
  exact selected_career_path_invariant hreach "Cybersecurity" rfl

/-- Lemma: merge sort of a two-element list. -/
theorem mergeSort_pair {α : Type} (a b : α) (le : α → α → Bool) :
    List.mergeSort [a, b] le = if le a b then [a, b] else [b, a] := by
  rw [List.mergeSort]
  simp [List.splitInTwo, List.splitAt, List.splitAt.go, List.merge]

/-- Lemma: equating a guarded `some` with a `some`. -/
theorem if_some_eq_some_iff {α : Type} {p : Prop} [Decidable p] {x e : α} :
    ((if p then some x else none) = some e) ↔ p ∧ x = e := by
  split_ifs with h
  · simp [h]
  · simp [h]

/-- Lemma: the descending-priority comparison is transitive. -/
theorem gap_priority_trans : ∀ (x y z : GapEntry),
    (fun a b : GapEntry => decide (b.priority ≤ a.priority)) x y →
    (fun a b : GapEntry => decide (b.priority ≤ a.priority)) y z →
    (fun a b : GapEntry => decide (b.priority ≤ a.priority)) x z := by
  intro x y z hxy hyz
  simp only [decide_eq_true_eq] at hxy hyz ⊢
  exact le_trans hyz hxy

/-- Lemma: the descending-priority comparison is total. -/
theorem gap_priority_total : ∀ (x y : GapEntry),
    ((fun a b : GapEntry => decide (b.priority ≤ a.priority)) x y
      || (fun a b : GapEntry => decide (b.priority ≤ a.priority)) y x) = true := by
  intro x y
  simp only [Bool.or_eq_true, decide_eq_true_eq]
  exact le_total y.priority x.priority

/-- Claim C2: for every skill table and every rating assignment, the
prioritized learning path is a permutation of the gap list, sorted by
non-increasing priority, stable (a pair of equal-priority entries in table
order stays in that order), and the gap list consists of exactly the skills
with `gap = requiredWeight - currentRating > 0` in table order, each carrying
`priority = gap * requiredWeight`; in particular, for ratings `A:2, B:0` with
weights `A:3, B:5` the gaps are `A:1, B:5`, the priorities `A:3, B:25`, and
the output order is `[B, A]`.  (Lean's `mergeSort` embeds Python's stable
`list.sort(key=..., reverse=True)`.) -/
theorem prioritized_gaps_spec (table : List (String × List Skill)) (sg : Ratings) :
    (prioritized_gaps table sg).Perm (all_gaps table sg)
    ∧ List.Pairwise (fun a b : GapEntry => b.priority ≤ a.priority)
        (prioritized_gaps table sg)
    ∧ (∀ a b : GapEntry, [a, b].Sublist (all_gaps table sg) →
        a.priority = b.priority → [a, b].Sublist (prioritized_gaps table sg))
    ∧ (∀ e : GapEntry, e ∈ all_gaps table sg ↔
        ∃ c ∈ table, ∃ sk ∈ c.2, 0 < skill_gap sg c.1 sk ∧
          { category := c.1, skill := sk.name, gap := skill_gap sg c.1 sk,
            priority := skill_gap sg c.1 sk * (sk.weight : Int),
            resources := sk.resources } = e)
    ∧ (prioritized_gaps [("Skills", [⟨"A", 3, []⟩, ⟨"B", 5, []⟩])]
        [("Skills", [("A", 2), ("B", 0)])]).map (fun e => e.skill) = ["B", "A"]
    ∧ (all_gaps [("Skills", [⟨"A", 3, []⟩, ⟨"B", 5, []⟩])]
        [("Skills", [("A", 2), ("B", 0)])]).map
          (fun e => (e.skill, e.gap, e.priority))
      = [("A", 1, 3), ("B", 5, 25)] := by
  refine ⟨List.mergeSort_perm _ _, ?_, ?_, ?_, ?_, by decide⟩
  · exact (List.sorted_mergeSort gap_priority_trans gap_priority_total
      (all_gaps table sg)).imp (fun h => of_decide_eq_true h)
  · intro a b hsub heq
    exact List.pair_sublist_mergeSort gap_priority_trans gap_priority_total
      (decide_eq_true (le_of_eq heq.symm)) hsub
  · intro e
    simp only [all_gaps, List.mem_flatMap, List.mem_filterMap, if_some_eq_some_iff,
      skill_gap, gt_iff_lt]
  · have hag : all_gaps [("Skills", [⟨"A", 3, []⟩, ⟨"B", 5, []⟩])]
        [("Skills", [("A", 2), ("B", 0)])]
        = [{ category := "Skills", skill := "A", gap := 1, priority := 3, resources := [] },
           { category := "Skills", skill := "B", gap := 5, priority := 25, resources := [] }] := by
      decide
    unfold prioritized_gaps
    rw [hag, mergeSort_pair]
    decide

/-- Witness for `prioritized_gaps_spec` at the two-skill instance: the
permutation component, read off at a concrete table. -/
theorem prioritized_gaps_spec_witness :
    (prioritized_gaps [("Skills", [⟨"A", 3, []⟩, ⟨"B", 5, []⟩])]
        [("Skills", [("A", 2), ("B", 0)])]).Perm
      (all_gaps [("Skills", [⟨"A", 3, []⟩, ⟨"B", 5, []⟩])]
        [("Skills", [("A", 2), ("B", 0)])]) :=
  (prioritized_gaps_spec [("Skills", [⟨"A", 3, []⟩, ⟨"B", 5, []⟩])]
    [("Skills", [("A", 2), ("B", 0)])]).1

end CareerCompass
